import Mathlib

/-!
Shallow embedding of src/streetview/download.py and verification of its
specification claims.

Modelling conventions:
- A decoded PIL bitmap is abstracted as a value of type Image (the spec treats
  decoding as an external capability); bitmap identity is all the claims need.
- Network transport is an oracle: given the request URL and the 0-based attempt
  index, it either raises a transient connection error or returns response bytes.
- Python float division by powers of two is exact for the magnitudes involved,
  so the float results of get_width_and_height_from_zoom are modelled in Rat.
- Exceptions are modelled with an explicit error type carrying exactly the data
  the Python code puts into each exception.
-/

namespace Streetview

/-- Abstract decoded bitmap (PIL Image internals are out of scope). -/
abbrev Image := List Nat

/-- Response body bytes. -/
abbrev Bytes := List Nat

/-- dataclass TileInfo: grid position and fetch URL of one tile. -/
structure TileInfo where
  x : Nat
  y : Nat
  fileurl : String
  deriving DecidableEq, Repr

/-- dataclass Tile: grid position plus the decoded bitmap. -/
structure Tile where
  x : Nat
  y : Nat
  image : Image
  deriving DecidableEq, Repr

/-- Result of one requests.get / async_client.get call on a given attempt. -/
inductive TransportResult where
  | connError
  | response (content : Bytes)
  deriving DecidableEq, Repr

/-- The exceptions the module can raise, carrying exactly the data the source
    code puts into each exception. -/
inductive DownloadError where
  | connectionError (msg : String)
  | unidentifiedImage (content : Bytes)
  | wrapped (msg : String)
  deriving DecidableEq, Repr

/-- A transport oracle: URL and attempt index to outcome of the network call. -/
abbrev Transport := String → Nat → TransportResult

/-- A decoder: Image.open on the body bytes, none meaning a decode exception. -/
abbrev Decoder := Bytes → Option Image

/-- DEFAULT_MAX_RETRIES = 6. -/
def DEFAULT_MAX_RETRIES : Nat := 6

/-- Trace of one fetch_panorama_tile call: its outcome, the number of
    requests.get calls performed, and the number of time.sleep(2) backoff
    waits performed. -/
structure FetchTrace where
  result : Except DownloadError Image
  attempts : Nat
  sleeps : Nat
  deriving Repr

/-- The retry loop of fetch_panorama_tile, with remaining iterations of
    `for _ in range(max_retries)` and the current attempt index, threading the
    attempt and sleep counters.  A connection error is caught, one backoff
    sleep is performed (the source sleeps inside the except branch, even on the
    final iteration) and the loop continues; a response is decoded, a decode
    failure escaping the loop undecorated since only the connection error is
    caught. After the loop the source raises
    requests.ConnectionError with the fixed message. -/
def fetchGo (transport : Transport) (decode : Decoder) (url : String) :
    Nat → Nat → Nat → Nat → FetchTrace
  | 0, _, attempts, sleeps =>
    ⟨.error (.connectionError "Max retries exceeded."), attempts, sleeps⟩
  | n + 1, i, attempts, sleeps =>
    match transport url i with
    | .connError => fetchGo transport decode url n (i + 1) (attempts + 1) (sleeps + 1)
    | .response content =>
      match decode content with
      | some img => ⟨.ok img, attempts + 1, sleeps⟩
      | none => ⟨.error (.unidentifiedImage content), attempts + 1, sleeps⟩

/-- fetch_panorama_tile(tile_info, max_retries): bounded-retry fetch of one
    tile.  fetch_panorama_tile_async has the identical control structure
    (httpx.RequestError for requests.ConnectionError, asyncio.sleep for
    time.sleep), so this models both. -/
def fetch_panorama_tile (tile_info : TileInfo) (transport : Transport)
    (decode : Decoder) (max_retries : Nat) : FetchTrace :=
  fetchGo transport decode tile_info.fileurl max_retries 0 0 0

/-- make_download_url(pano_id, zoom, x, y). -/
def make_download_url (pano_id : String) (zoom x y : Nat) : String :=
  "https://cbk0.google.com/cbk?output=tile&panoid=" ++ pano_id ++
    "&zoom=" ++ toString zoom ++ "&x=" ++ toString x ++ "&y=" ++ toString y

/-- iter_tile_info(pano_id, zoom) given the already-resolved grid counts:
    itertools.product(range(width), range(height)) iterates x in the outer
    loop and y in the inner loop. -/
def iter_tile_info (pano_id : String) (zoom : Nat) (width height : Nat) :
    List TileInfo :=
  (List.range width).flatMap fun x =>
    (List.range height).map fun y =>
      ⟨x, y, make_download_url pano_id zoom x y⟩

/-- The coordinate (x, y) of a TileInfo. -/
def TileInfo.coord (t : TileInfo) : Nat × Nat := (t.x, t.y)

/-- The coordinate (x, y) of a Tile. -/
def Tile.coord (t : Tile) : Nat × Nat := (t.x, t.y)

/-- Row-major enumeration with column varying fastest, as the specification
    describes the canonical order: for each row index in ascending order, all
    column indices in ascending order. -/
def rowMajorOrder (width height : Nat) : List (Nat × Nat) :=
  (List.range height).flatMap fun y =>
    (List.range width).map fun x => (x, y)

/-- Column-major enumeration with row varying fastest: for each column index
    in ascending order, all row indices in ascending order. -/
def columnMajorOrder (width height : Nat) : List (Nat × Nat) :=
  (List.range width).flatMap fun x =>
    (List.range height).map fun y => (x, y)

/-- get_width_and_height_from_zoom(pano_id, zoom), parameterised by the
    dimension value photometa_document[1][0][2][2][0] returned by the remote
    metadata lookup.  The source computes
    width = int(dim / pow(2, 4 - zoom)), height = int(dim / pow(2, 5 - zoom))
    and returns (width/512, height/512) with Python true division, so the
    results are floats.  Division of a natural number by a power of two is
    exact in binary floating point at these magnitudes, so the pair is
    modelled exactly in Rat; int() truncation on a nonnegative float is
    floor, i.e. Nat division. -/
def get_width_and_height_from_zoom (dim : Nat) (zoom : Nat) : ℚ × ℚ :=
  let width : Nat := dim * 2 ^ zoom / 16
  let height : Nat := dim * 2 ^ zoom / 32
  ((width : ℚ) / 512, (height : ℚ) / 512)

/-- The canvas allocated by get_panorama:
    Image.new("RGB", (total_width * tile_width, total_height * tile_height))
    with tile_width = tile_height = 512, given the same metadata dimension
    value. -/
def get_panorama_canvas_size (dim : Nat) (zoom : Nat) : ℚ × ℚ :=
  ((get_width_and_height_from_zoom dim zoom).1 * 512,
   (get_width_and_height_from_zoom dim zoom).2 * 512)

/-- The body of the loops in iter_tiles, iter_tiles_async:
    Tile(x=info.x, y=info.y, image=...), for a fetch behaviour under which
    every tile fetch succeeds with bitmap fetchImg info. -/
def tileOf (fetchImg : TileInfo → Image) (info : TileInfo) : Tile :=
  ⟨info.x, info.y, fetchImg info⟩

/-- iter_tiles(pano_id, zoom, max_retries, multi_threaded) under a fetch
    behaviour where every fetch succeeds.  The sequential branch maps
    fetch over iter_tile_info in order; the multi_threaded branch submits
    every request to a thread pool and yields in completion order, which is
    some permutation of the submitted requests — the nondeterministic
    completion order is an explicit parameter. -/
def iter_tiles (pano_id : String) (zoom : Nat) (width height : Nat)
    (fetchImg : TileInfo → Image) (multi_threaded : Bool)
    (completionOrder : List TileInfo) : List Tile :=
  if multi_threaded then
    completionOrder.map (tileOf fetchImg)
  else
    (iter_tile_info pano_id zoom width height).map (tileOf fetchImg)

/-- iter_tiles_async(pano_id, zoom, max_retries) under a fetch behaviour
    where every fetch succeeds: awaits each tile in iter_tile_info order. -/
def iter_tiles_async (pano_id : String) (zoom : Nat) (width height : Nat)
    (fetchImg : TileInfo → Image) : List Tile :=
  (iter_tile_info pano_id zoom width height).map (tileOf fetchImg)

/-- One panorama.paste(im=tile.image, box=...) call recorded by the
    assembler. -/
structure PasteOp where
  image : Image
  box : Nat × Nat
  deriving DecidableEq, Repr

/-- The assembly loop shared by get_panorama and get_panorama_async: for each
    tile of the delivered sequence, paste its bitmap at
    box = (tile.x * tile_width, tile.y * tile_height) with
    tile_width = tile_height = 512. -/
def assemble (tiles : List Tile) : List PasteOp :=
  tiles.map fun tile => ⟨tile.image, (tile.x * 512, tile.y * 512)⟩

/-- The Exception raised by the multi_threaded branch of iter_tiles when a
    future fails: Exception(f-string of info.fileurl and the inner
    exception text). -/
def wrap_tile_error (info : TileInfo) (exc : String) : DownloadError :=
  .wrapped ("Failed to download tile " ++ info.fileurl ++
    " due to Exception: " ++ exc)

/-- A computation threading the number of calls made to
    get_width_and_height_from_zoom (the Dimension Resolver). -/
abbrev Counted (α : Type) := Nat → α × Nat

/-- A resolver oracle giving the grid counts returned at each call. -/
abbrev Resolver := Nat → Nat × Nat

/-- One call to get_width_and_height_from_zoom, incrementing the call
    counter. -/
def callResolver (resolve : Resolver) : Counted (Nat × Nat) :=
  fun n => (resolve n, n + 1)

/-- iter_tile_info with the resolver call at its top counted (line
    width, height = get_width_and_height_from_zoom(pano_id, zoom)). -/
def iter_tile_info_counted (resolve : Resolver) (pano_id : String)
    (zoom : Nat) : Counted (List TileInfo) :=
  fun n =>
    let r := callResolver resolve n
    (iter_tile_info pano_id zoom r.1.1 r.1.2, r.2)

/-- iter_tiles with resolver calls counted; both the sequential and the
    multi_threaded branch obtain their requests from one iter_tile_info
    generator. -/
def iter_tiles_counted (resolve : Resolver) (pano_id : String) (zoom : Nat)
    (fetchImg : TileInfo → Image) : Counted (List Tile) :=
  fun n =>
    let r := iter_tile_info_counted resolve pano_id zoom n
    (r.1.map (tileOf fetchImg), r.2)

/-- get_panorama with resolver calls counted: the body first calls
    get_width_and_height_from_zoom directly to size the canvas, then iterates
    iter_tiles (which resolves again inside iter_tile_info), pasting each
    tile. -/
def get_panorama_counted (resolve : Resolver) (pano_id : String) (zoom : Nat)
    (fetchImg : TileInfo → Image) : Counted (List PasteOp) :=
  fun n =>
    let r1 := callResolver resolve n
    let r2 := iter_tiles_counted resolve pano_id zoom fetchImg r1.2
    (assemble r2.1, r2.2)

/-! Helper lemmas shared by the claim theorems. -/

lemma iter_tile_info_coords (pano_id : String) (zoom width height : Nat) :
    (iter_tile_info pano_id zoom width height).map TileInfo.coord =
      columnMajorOrder width height := by
  simp [iter_tile_info, columnMajorOrder, List.map_flatMap, List.map_map,
    TileInfo.coord, Function.comp_def]

lemma columnMajorOrder_eq_product (width height : Nat) :
    columnMajorOrder width height = (List.range width) ×ˢ (List.range height) :=
  rfl

lemma columnMajorOrder_nodup (width height : Nat) :
    (columnMajorOrder width height).Nodup := by
  rw [columnMajorOrder_eq_product]
  exact (List.nodup_range _).product (List.nodup_range _)

lemma columnMajorOrder_length (width height : Nat) :
    (columnMajorOrder width height).length = width * height := by
  rw [columnMajorOrder_eq_product]
  simp [List.length_product]

lemma columnMajorOrder_mem (width height : Nat) (p : Nat × Nat) :
    p ∈ columnMajorOrder width height ↔ p.1 < width ∧ p.2 < height := by
  rw [columnMajorOrder_eq_product]
  obtain ⟨a, b⟩ := p
  simp [List.mem_product]

lemma fetchGo_all_fail (transport : Transport) (decode : Decoder)
    (url : String) :
    ∀ n i a s, (∀ j, j < n → transport url (i + j) = .connError) →
      fetchGo transport decode url n i a s =
        ⟨.error (.connectionError "Max retries exceeded."), a + n, s + n⟩ := by
  intro n
  induction n with
  | zero => intro i a s _; simp [fetchGo]
  | succ m ih =>
    intro i a s h
    have h0 : transport url i = .connError := by simpa using h 0 (Nat.succ_pos m)
    rw [fetchGo, h0]
    rw [ih (i + 1) (a + 1) (s + 1) (fun j hj => by
      have := h (j + 1) (Nat.succ_lt_succ hj)
      simpa [Nat.add_assoc, Nat.add_comm 1 j] using this)]
    simp [Nat.add_assoc, Nat.add_comm 1 m]

lemma fetchGo_response (transport : Transport) (decode : Decoder)
    (url : String) (content : Bytes) :
    ∀ k n i a s, (∀ j, j < k → transport url (i + j) = .connError) →
      transport url (i + k) = .response content → k < n →
      fetchGo transport decode url n i a s =
        match decode content with
        | some img => ⟨.ok img, a + k + 1, s + k⟩
        | none => ⟨.error (.unidentifiedImage content), a + k + 1, s + k⟩ := by
  intro k
  induction k with
  | zero =>
    intro n i a s _ hresp hn
    obtain ⟨m, rfl⟩ := Nat.exists_eq_succ_of_ne_zero (Nat.pos_iff_ne_zero.mp hn)
    rw [fetchGo]
    rw [show transport url i = .response content from by simpa using hresp]
    cases hd : decode content <;> simp [hd]
  | succ m ih =>
    intro n i a s hfail hresp hn
    obtain ⟨n', rfl⟩ := Nat.exists_eq_succ_of_ne_zero
      (Nat.pos_iff_ne_zero.mp (Nat.lt_of_le_of_lt (Nat.zero_le _) hn))
    have h0 : transport url i = .connError := by
      simpa using hfail 0 (Nat.succ_pos m)
    rw [fetchGo, h0]
    rw [ih n' (i + 1) (a + 1) (s + 1)
      (fun j hj => by
        have := hfail (j + 1) (Nat.succ_lt_succ hj)
        simpa [Nat.add_assoc, Nat.add_comm 1 j] using this)
      (by simpa [Nat.add_assoc, Nat.add_comm 1 m] using hresp)
      (Nat.lt_of_succ_lt_succ hn)]
    cases hd : decode content <;> simp [hd, FetchTrace.mk.injEq] <;> omega

lemma coord_tileOf (fetchImg : TileInfo → Image) (info : TileInfo) :
    (tileOf fetchImg info).coord = info.coord := rfl

/-! Claim theorems. -/

/-- C1: for every tile request and every maxRetries at least 1, a transport
    that fails transiently on exactly the first maxRetries - 1 attempts and
    then succeeds with decodable bytes makes the fetch return the decoded
    tile image, while a transport that fails transiently on every attempt
    makes the fetch raise the exhaustion error after performing exactly
    maxRetries fetch attempts. -/
theorem C1_retry_bound :
    (∀ (info : TileInfo) (transport : Transport) (decode : Decoder)
        (max_retries : Nat) (content : Bytes) (img : Image),
      1 ≤ max_retries →
      (∀ i, i < max_retries - 1 → transport info.fileurl i = .connError) →
      transport info.fileurl (max_retries - 1) = .response content →
      decode content = some img →
      (fetch_panorama_tile info transport decode max_retries).result =
        .ok img) ∧
    (∀ (info : TileInfo) (transport : Transport) (decode : Decoder)
        (max_retries : Nat),
      (∀ i, transport info.fileurl i = .connError) →
      fetch_panorama_tile info transport decode max_retries =
        ⟨.error (.connectionError "Max retries exceeded."), max_retries,
          max_retries⟩) := by
  constructor
  · intro info transport decode m content img hm hfail hresp hdec
    have h := fetchGo_response transport decode info.fileurl content
      (m - 1) m 0 0 0
      (fun j hj => by simpa using hfail j hj) (by simpa using hresp) (by omega)
    rw [fetch_panorama_tile, h, hdec]
  · intro info transport decode m hfail
    have h := fetchGo_all_fail transport decode info.fileurl m 0 0 0
      (fun j _ => hfail (0 + j))
    rw [fetch_panorama_tile, h]
    simp

/-- C1 witness: the retry bound evaluated with maxRetries = 3, a transport
    failing on attempts 0 and 1 then responding, and an always-failing
    transport. -/
theorem C1_retry_bound_witness :
    (fetch_panorama_tile ⟨0, 0, "u"⟩
        (fun _ i => if i < 2 then .connError else .response [7])
        (fun _ => some [5]) 3).result = .ok [5] ∧
    fetch_panorama_tile ⟨0, 0, "u"⟩ (fun _ _ => .connError)
        (fun _ => some [5]) 3 =
      ⟨.error (.connectionError "Max retries exceeded."), 3, 3⟩ :=
  ⟨C1_retry_bound.1 ⟨0, 0, "u"⟩ _ _ 3 [7] [5] (by decide)
      (fun i hi => by
        have h2 : i < 2 := by omega
        simp [h2])
      rfl rfl,
    C1_retry_bound.2 ⟨0, 0, "u"⟩ _ _ 3 (fun _ => rfl)⟩

/-- C2 counterexample: on a 2 by 2 grid the Tile Locator does not yield the
    row-major order with column varying fastest that the claim states; it
    yields (0,0), (0,1), (1,0), (1,1) instead of (0,0), (1,0), (0,1),
    (1,1). -/
theorem C2_counterexample :
    (iter_tile_info "X" 1 2 2).map TileInfo.coord ≠ rowMajorOrder 2 2 := by
  decide

/-- C2 (amended): the Tile Locator yields exactly gridWidth times gridHeight
    elements in column-major order with row varying fastest within a column:
    for each column index in ascending order, all row indices in ascending
    order. -/
theorem C2_locator_order (pano_id : String) (zoom width height : Nat) :
    ((iter_tile_info pano_id zoom width height).map TileInfo.coord).length =
      width * height ∧
    (iter_tile_info pano_id zoom width height).map TileInfo.coord =
      columnMajorOrder width height :=
  ⟨by rw [iter_tile_info_coords]; exact columnMajorOrder_length _ _,
    iter_tile_info_coords _ _ _ _⟩

/-- C3: for a resolved grid of width W and height H the Tile Locator yields
    exactly W times H coordinates, with no duplicates, covering precisely the
    rectangle of columns below W and rows below H. -/
theorem C3_locator_coverage (pano_id : String) (zoom width height : Nat) :
    ((iter_tile_info pano_id zoom width height).map TileInfo.coord).length =
      width * height ∧
    ((iter_tile_info pano_id zoom width height).map TileInfo.coord).Nodup ∧
    ∀ p : Nat × Nat,
      p ∈ (iter_tile_info pano_id zoom width height).map TileInfo.coord ↔
        p.1 < width ∧ p.2 < height := by
  rw [iter_tile_info_coords]
  exact ⟨columnMajorOrder_length _ _, columnMajorOrder_nodup _ _,
    columnMajorOrder_mem _ _⟩

/-- C4: when every fetch succeeds, the pooled strategy (yielding in any
    completion order, a permutation of the submitted requests), the
    sequential strategy, and the cooperative async strategy deliver tile
    sequences with identical coordinate sets, each coordinate delivered
    exactly once, differing only in delivery order. -/
theorem C4_strategies_agree (pano_id : String) (zoom width height : Nat)
    (fetchImg : TileInfo → Image) (completionOrder : List TileInfo)
    (hperm : completionOrder.Perm (iter_tile_info pano_id zoom width height)) :
    ((iter_tiles pano_id zoom width height fetchImg true completionOrder).map
        Tile.coord).Perm
      ((iter_tiles pano_id zoom width height fetchImg false
        completionOrder).map Tile.coord) ∧
    (iter_tiles_async pano_id zoom width height fetchImg).map Tile.coord =
      (iter_tiles pano_id zoom width height fetchImg false
        completionOrder).map Tile.coord ∧
    ((iter_tiles pano_id zoom width height fetchImg false
        completionOrder).map Tile.coord).Nodup ∧
    ((iter_tiles pano_id zoom width height fetchImg true
        completionOrder).map Tile.coord).Nodup := by
  have hseq : (iter_tiles pano_id zoom width height fetchImg false
      completionOrder).map Tile.coord = columnMajorOrder width height := by
    simp [iter_tiles, Function.comp_def, coord_tileOf, iter_tile_info_coords]
  have hpool : (iter_tiles pano_id zoom width height fetchImg true
      completionOrder).map Tile.coord =
        completionOrder.map TileInfo.coord := by
    simp [iter_tiles, Function.comp_def, coord_tileOf]
  have hp : ((iter_tiles pano_id zoom width height fetchImg true
      completionOrder).map Tile.coord).Perm
      ((iter_tiles pano_id zoom width height fetchImg false
        completionOrder).map Tile.coord) := by
    rw [hpool, hseq]
    have h := hperm.map TileInfo.coord
    rwa [iter_tile_info_coords] at h
  refine ⟨hp, ?_, ?_, ?_⟩
  · simp [iter_tiles, iter_tiles_async]
  · rw [hseq]; exact columnMajorOrder_nodup _ _
  · exact hp.nodup_iff.mpr (by rw [hseq]; exact columnMajorOrder_nodup _ _)

/-- C4 witness: the three strategies compared on a 2 by 1 grid with the
    pooled completion order being the reverse of the canonical
    enumeration. -/
theorem C4_strategies_agree_witness :
    ((iter_tile_info "X" 1 2 1).reverse).Perm (iter_tile_info "X" 1 2 1) ∧
    (((iter_tiles "X" 1 2 1 (fun _ => [])
          true ((iter_tile_info "X" 1 2 1).reverse)).map Tile.coord).Perm
      ((iter_tiles "X" 1 2 1 (fun _ => [])
          false ((iter_tile_info "X" 1 2 1).reverse)).map Tile.coord) ∧
    (iter_tiles_async "X" 1 2 1 (fun _ => [])).map Tile.coord =
      (iter_tiles "X" 1 2 1 (fun _ => [])
          false ((iter_tile_info "X" 1 2 1).reverse)).map Tile.coord ∧
    ((iter_tiles "X" 1 2 1 (fun _ => [])
        false ((iter_tile_info "X" 1 2 1).reverse)).map Tile.coord).Nodup ∧
    ((iter_tiles "X" 1 2 1 (fun _ => [])
        true ((iter_tile_info "X" 1 2 1).reverse)).map Tile.coord).Nodup) :=
  ⟨List.reverse_perm _,
    C4_strategies_agree "X" 1 2 1 (fun _ => []) _ (List.reverse_perm _)⟩

/-- C5: at every position of the delivered tile sequence, the paste operation
    recorded by the assembler for the tile at that position uses the box
    computed from that tile coordinate, namely (x * 512, y * 512), regardless
    of where in the delivery order the tile sits. -/
theorem C5_paste_offset (tiles : List Tile) (i : Nat) :
    (assemble tiles)[i]? =
      tiles[i]?.map fun tile => PasteOp.mk tile.image
        (tile.x * 512, tile.y * 512) := by
  simp [assemble]

/-- C6: with metadata dimension value 512 at zoom 4 the code returns the
    grid pair (1, 1/2): the grid height is not a positive integer, because
    the source divides with Python true division; the canvas the code would
    allocate is (512, 256), which does equal grid times 512. -/
theorem C6_grid_not_integer :
    get_width_and_height_from_zoom 512 4 = (1, 1 / 2) ∧
    ¬ (∃ n : Nat, 0 < n ∧
        (get_width_and_height_from_zoom 512 4).2 = (n : ℚ)) ∧
    get_panorama_canvas_size 512 4 = (512, 256) ∧
    get_panorama_canvas_size 512 4 =
      ((get_width_and_height_from_zoom 512 4).1 * 512,
       (get_width_and_height_from_zoom 512 4).2 * 512) := by
  refine ⟨by norm_num [get_width_and_height_from_zoom], ?_,
    by norm_num [get_panorama_canvas_size, get_width_and_height_from_zoom],
    rfl⟩
  rintro ⟨n, hn, he⟩
  have h1 : (1 : ℚ) ≤ (n : ℚ) := by exact_mod_cast hn
  rw [← he] at h1
  norm_num [get_width_and_height_from_zoom] at h1

/-- C7 counterexample: a concrete download performs 2 calls to the Dimension
    Resolver, not 1. -/
theorem C7_counterexample :
    (get_panorama_counted (fun _ => (2, 1)) "X" 1 (fun _ => []) 0).2 = 2 ∧
    (get_panorama_counted (fun _ => (2, 1)) "X" 1 (fun _ => []) 0).2 ≠ 1 :=
  ⟨rfl, by decide⟩

/-- C7 (amended): every invocation of the public download entry point calls
    the Dimension Resolver exactly twice: once directly in get_panorama to
    size the canvas, and once more inside iter_tile_info. -/
theorem C7_resolver_calls (resolve : Resolver) (pano_id : String)
    (zoom : Nat) (fetchImg : TileInfo → Image) (n : Nat) :
    (get_panorama_counted resolve pano_id zoom fetchImg n).2 = n + 2 := by
  simp [get_panorama_counted, iter_tiles_counted, iter_tile_info_counted,
    callResolver]

/-- C8 counterexample: with maxRetries = 1 and an always-failing transport
    the fetch does raise after exactly 1 attempt, but one backoff wait is
    performed, because the source sleeps inside the except branch even on the
    final iteration. -/
theorem C8_counterexample :
    fetch_panorama_tile ⟨0, 0, "u"⟩ (fun _ _ => .connError)
        (fun _ => none) 1 =
      ⟨.error (.connectionError "Max retries exceeded."), 1, 1⟩ ∧
    (fetch_panorama_tile ⟨0, 0, "u"⟩ (fun _ _ => .connError)
        (fun _ => none) 1).sleeps ≠ 0 :=
  ⟨rfl, by decide⟩

/-- C8 (amended): with maxRetries = 1 and a transport that always fails
    transiently, the fetch raises the exhaustion error after exactly 1 fetch
    attempt and performs exactly one backoff wait. -/
theorem C8_exhaust_one_attempt (info : TileInfo) (transport : Transport)
    (decode : Decoder)
    (hfail : ∀ i, transport info.fileurl i = .connError) :
    fetch_panorama_tile info transport decode 1 =
      ⟨.error (.connectionError "Max retries exceeded."), 1, 1⟩ := by
  have h := fetchGo_all_fail transport decode info.fileurl 1 0 0 0
    (fun j _ => hfail (0 + j))
  rw [fetch_panorama_tile, h]

/-- C8 witness: the single-attempt exhaustion evaluated on a concrete
    tile. -/
theorem C8_exhaust_one_attempt_witness :
    fetch_panorama_tile ⟨1, 2, "w"⟩ (fun _ _ => .connError)
        (fun _ => some []) 1 =
      ⟨.error (.connectionError "Max retries exceeded."), 1, 1⟩ :=
  C8_exhaust_one_attempt ⟨1, 2, "w"⟩ _ _ (fun _ => rfl)

/-- C9 counterexample: two tiles with different coordinates and different
    URLs whose fetches exhaust all attempts produce identical error values,
    so the raised error carries neither the tile coordinate nor its URL. -/
theorem C9_counterexample :
    (fetch_panorama_tile ⟨0, 0, "urlA"⟩ (fun _ _ => .connError)
        (fun _ => none) 6).result =
      (fetch_panorama_tile ⟨1, 2, "urlB"⟩ (fun _ _ => .connError)
        (fun _ => none) 6).result ∧
    (TileInfo.mk 0 0 "urlA").fileurl ≠ (TileInfo.mk 1 2 "urlB").fileurl ∧
    TileInfo.coord ⟨0, 0, "urlA"⟩ ≠ TileInfo.coord ⟨1, 2, "urlB"⟩ :=
  ⟨rfl, by decide, by decide⟩

/-- C9 (amended): a fetch that exhausts all attempts raises the fixed
    connection error with message Max retries exceeded, identical for every
    tile and so carrying neither coordinate nor URL; the multi_threaded
    branch of iter_tiles wraps such a failure in an exception whose message
    embeds the failing tile URL, still without the coordinate. -/
theorem C9_exhaustion_payload (info : TileInfo) (transport : Transport)
    (decode : Decoder) (max_retries : Nat)
    (hfail : ∀ i, transport info.fileurl i = .connError) :
    (fetch_panorama_tile info transport decode max_retries).result =
      .error (.connectionError "Max retries exceeded.") ∧
    ∀ exc : String, wrap_tile_error info exc =
      .wrapped ("Failed to download tile " ++ info.fileurl ++
        " due to Exception: " ++ exc) := by
  constructor
  · have h := fetchGo_all_fail transport decode info.fileurl max_retries 0 0 0
      (fun j _ => hfail (0 + j))
    rw [fetch_panorama_tile, h]
  · intro exc
    rfl

/-- C9 witness: the exhaustion payload evaluated on a concrete tile with two
    failing attempts. -/
theorem C9_exhaustion_payload_witness :
    (fetch_panorama_tile ⟨3, 4, "urlC"⟩ (fun _ _ => .connError)
        (fun _ => none) 2).result =
      .error (.connectionError "Max retries exceeded.") ∧
    ∀ exc : String, wrap_tile_error ⟨3, 4, "urlC"⟩ exc =
      .wrapped ("Failed to download tile " ++ "urlC" ++
        " due to Exception: " ++ exc) :=
  C9_exhaustion_payload ⟨3, 4, "urlC"⟩ _ _ 2 (fun _ => rfl)

/-- C10: if the first k attempts fail transiently and attempt k + 1 returns
    a response whose body fails to decode, the fetch raises the decode error
    immediately: exactly k + 1 fetch attempts happen in total (none after the
    response) and exactly k backoff waits happen (all before the response,
    none caused by the decode failure). -/
theorem C10_decode_error (info : TileInfo) (transport : Transport)
    (decode : Decoder) (max_retries k : Nat) (content : Bytes)
    (hk : k < max_retries)
    (hfail : ∀ i, i < k → transport info.fileurl i = .connError)
    (hresp : transport info.fileurl k = .response content)
    (hdec : decode content = none) :
    fetch_panorama_tile info transport decode max_retries =
      ⟨.error (.unidentifiedImage content), k + 1, k⟩ := by
  have h := fetchGo_response transport decode info.fileurl content k
    max_retries 0 0 0 (fun j hj => by simpa using hfail j hj)
    (by simpa using hresp) hk
  rw [fetch_panorama_tile, h, hdec]
  simp

/-- C10 witness: the decode failure evaluated with one transient failure
    followed by an undecodable response, under maxRetries = 6. -/
theorem C10_decode_error_witness :
    fetch_panorama_tile ⟨0, 0, "v"⟩
        (fun _ i => if i < 1 then .connError else .response [9])
        (fun _ => none) 6 =
      ⟨.error (.unidentifiedImage [9]), 2, 1⟩ :=
  C10_decode_error ⟨0, 0, "v"⟩ _ _ 6 1 [9] (by decide)
    (fun i hi => by
      have h0 : i = 0 := by omega
      simp [h0])
    rfl rfl

end Streetview
